import Mathlib

/-!
Verification of the verifier-log-analysis core: record parsing (models.py),
record merging, outcome classification, HCP lookup caching, and the
statistics stage (analyze_csv.py).

Machine/stdlib collaborators (ISO-8601 timestamp parsing, JSON list decoding,
URL validation) are passed as function parameters; timestamps are modelled as
integers (a totally ordered instant type, matching Python datetime
comparability).
-/

/-- States in which an OCM cluster could be (models.py `OCMState`). -/
inductive OCMState where
  | VALIDATING
  | WAITING
  | PENDING
  | INSTALLING
  | READY
  | ERROR
  | UNINSTALLING
  | UNKNOWN
  | POWERING_DOWN
  | RESUMING
  | HIBERNATING
deriving DecidableEq, Repr

/-- Enum-value lookup for `OCMState`, mirroring Python `OCMState(value)`:
`some` on an exact match of a member's value, `none` where Python raises
`ValueError`. -/
def OCMState.fromString : String → Option OCMState
  | "validating" => some .VALIDATING
  | "waiting" => some .WAITING
  | "pending" => some .PENDING
  | "installing" => some .INSTALLING
  | "ready" => some .READY
  | "error" => some .ERROR
  | "uninstalling" => some .UNINSTALLING
  | "unknown" => some .UNKNOWN
  | "powering_down" => some .POWERING_DOWN
  | "resuming" => some .RESUMING
  | "hibernating" => some .HIBERNATING
  | _ => none

/-- Returns true if representing a "non-steady state" (models.py
`OCMState.is_transient`). -/
def OCMState.is_transient (s : OCMState) : Bool :=
  !(s = .READY || s = .ERROR || s = .UNINSTALLING || s = .HIBERNATING)

/-- States in which an in-flight check could be (models.py `InFlightState`). -/
inductive InFlightState where
  | PENDING
  | RUNNING
  | PASSED
  | FAILED
deriving DecidableEq, Repr

/-- Enum-value lookup for `InFlightState`, mirroring Python
`InFlightState(value)`: `some` on an exact match of a member's value, `none`
where Python raises `ValueError`. -/
def InFlightState.fromString : String → Option InFlightState
  | "pending" => some .PENDING
  | "running" => some .RUNNING
  | "passed" => some .PASSED
  | "failed" => some .FAILED
  | _ => none

/-- Modelled from the spec: the `Outcome` enum is imported by analyze_csv.py
from models but its declaration is absent from src/; §3 gives the closed
variant set. -/
inductive Outcome where
  | TRUE_POSITIVE
  | TRUE_NEGATIVE
  | FALSE_POSITIVE
  | FALSE_NEGATIVE
  | UNKNOWN
deriving DecidableEq, Repr

/-- Represents a single row in the CSV (models.py `ClusterVerifierRecord`).
The timestamp is an integer instant; tri-state booleans are `Option Bool`
(`none` = unknown, matching Python `None`). -/
structure ClusterVerifierRecord where
  timestamp : Int
  cid : String
  cname : Option String
  ocm_state : Option OCMState
  ocm_inflight_states : Option (List InFlightState)
  found_verifier_s3_logs : Option Bool
  found_all_tests_passed : Option Bool
  found_egress_failures : Option Bool
  log_download_url : Option String
deriving DecidableEq, Repr

/-- Raw CSV row as handed to `from_dict` by `csv.DictReader`: every column is
an optional string (`none` models an absent key / `None` value). -/
structure Row where
  timestamp : Option String
  cid : Option String
  cname : Option String
  ocm_state : Option String
  ocm_inflight_states : Option String
  found_verifier_s3_logs : Option String
  found_all_tests_passed : Option String
  found_egress_failures : Option String
  log_download_url : Option String
deriving DecidableEq, Repr

/-- Executable model of Python `str.strip()`: drops leading and trailing
whitespace, working on the character list so the kernel can evaluate it. -/
def py_strip (s : String) : String :=
  String.mk (((s.data.dropWhile Char.isWhitespace).reverse.dropWhile
    Char.isWhitespace).reverse)

/-- Executable model of Python `str.lower()`: lowercases every character. -/
def py_lower (s : String) : String := String.mk (s.data.map Char.toLower)

/-- Modelled from the spec: util.py (`is_nully_str`) is absent from src/.
Per §3, a value is "nully" when it is absent or blank after trimming. -/
def is_nully_str : Option String → Bool
  | none => true
  | some s => py_strip s = ""

/-- Modelled from the spec: util.py (`csv_bool_to_bool`) is absent from src/.
Per §3/§6, blank/absent maps to unknown (`none`), case-insensitive
"true"/"false" to the definite boolean, and any other token is a hard parse
failure. -/
def csv_bool_to_bool (s : Option String) : Except String (Option Bool) :=
  match s with
  | none => .ok none
  | some s =>
    let t := py_lower (py_strip s)
    if t = "" then .ok none
    else if t = "true" then .ok (some true)
    else if t = "false" then .ok (some false)
    else .error "ValueError: invalid boolean token"

/-- Conversion of the (already lowered-and-stripped test applied inside
`from_dict`) `ocm_state` column: models.py lines 119 and 127-129. The raw
string is lowercased then stripped before the nully test and the enum
conversion. -/
def parse_ocm_state (s : String) : Except String (Option OCMState) :=
  let t := py_strip (py_lower s)
  if t = "" then .ok none
  else match OCMState.fromString t with
    | some st => .ok (some st)
    | none => .error "ValueError: invalid OCMState"

/-- Elementwise enum conversion of a decoded JSON string list, mirroring
`list(InFlightState(s) for s in json.loads(...))`: the first unrecognized
member raises. No case normalization is applied. -/
def inflight_of_list (l : List String) : Except String (List InFlightState) :=
  match l with
  | [] => .ok []
  | x :: xs =>
    match InFlightState.fromString x with
    | none => .error "ValueError: invalid InFlightState"
    | some st =>
      match inflight_of_list xs with
      | .error e => .error e
      | .ok sts => .ok (st :: sts)

/-- Conversion of the `ocm_inflight_states` column (models.py lines 120 and
131-135): the stripped value is tested for nulliness, but JSON decoding (the
collaborator `jsonL`, `none` where `json.loads` raises) runs on the raw
value. -/
def parse_inflight (jsonL : String → Option (List String)) (raw : String) :
    Except String (Option (List InFlightState)) :=
  if py_strip raw = "" then .ok none
  else match jsonL raw with
    | none => .error "JSONDecodeError"
    | some l =>
      match inflight_of_list l with
      | .error e => .error e
      | .ok sts => .ok (some sts)

/-- Embedding of `ClusterVerifierRecord.from_dict` (models.py lines 101-151).
`parseTs` stands for `datetime.fromisoformat` (`none` where it raises),
`jsonL` for `json.loads` of a string list, `validUrl` for util.py
`is_valid_url`. Errors carry the Python exception flavor; evaluation order
follows the source. -/
def from_dict (parseTs : String → Option Int)
    (jsonL : String → Option (List String)) (validUrl : String → Bool)
    (row : Row) : Except String ClusterVerifierRecord :=
  match row.timestamp with
  | none => .error "KeyError: timestamp"
  | some tsRaw =>
    match parseTs (tsRaw.replace "Z" "+00:00") with
    | none => .error "ValueError: invalid isoformat string"
    | some ts =>
      match row.cid with
      | none => .error "KeyError: cid"
      | some cidRaw =>
        let cid := py_strip cidRaw
        if is_nully_str (some cid) then
          .error "ValueError: Cannot create ClusterVerifierRecord without cluster ID (cid)"
        else
          match row.cname with
          | none => .error "ValueError: Non-str-typed keys passed to from_dict()"
          | some cnameRaw =>
            let cname := if is_nully_str (some cnameRaw) then none
              else some (py_strip cnameRaw)
            match csv_bool_to_bool row.found_verifier_s3_logs with
            | .error e => .error e
            | .ok found_verifier_s3_logs =>
              match csv_bool_to_bool row.found_all_tests_passed with
              | .error e => .error e
              | .ok found_all_tests_passed =>
                match csv_bool_to_bool row.found_egress_failures with
                | .error e => .error e
                | .ok found_egress_failures =>
                  match row.ocm_state with
                  | none => .error "ValueError: Non-str-typed keys passed to from_dict()"
                  | some ocmRaw =>
                    match row.ocm_inflight_states with
                    | none => .error "ValueError: Non-str-typed keys passed to from_dict()"
                    | some inflightRaw =>
                      match parse_ocm_state ocmRaw with
                      | .error e => .error e
                      | .ok ocm_state =>
                        match parse_inflight jsonL inflightRaw with
                        | .error e => .error e
                        | .ok ocm_inflight_states =>
                          let log_download_url :=
                            match row.log_download_url with
                            | none => none
                            | some u => if validUrl u then some u else none
                          .ok {
                            timestamp := ts
                            cid := cid
                            cname := cname
                            ocm_state := ocm_state
                            ocm_inflight_states := ocm_inflight_states
                            found_verifier_s3_logs := found_verifier_s3_logs
                            found_all_tests_passed := found_all_tests_passed
                            found_egress_failures := found_egress_failures
                            log_download_url := log_download_url
                          }

/-- Comparison `__gt__` (models.py line 83): determined solely by timestamp. -/
def ClusterVerifierRecord.gtb (a b : ClusterVerifierRecord) : Bool :=
  b.timestamp < a.timestamp

/-- Comparison `__lt__` (models.py line 86): determined solely by timestamp. -/
def ClusterVerifierRecord.ltb (a b : ClusterVerifierRecord) : Bool :=
  a.timestamp < b.timestamp

/-- Tri-state "sticky true" combine (spec §4.2): any `some true` wins, else
any `some false` wins, else unknown. Knowledge is never destroyed. -/
def tri_sticky (a b : Option Bool) : Option Bool :=
  if a = some true ∨ b = some true then some true
  else if a = some false ∨ b = some false then some false
  else none

/-- Tri-state "unanimity" combine (spec §4.2): any `some false` wins, else an
unknown operand leaves the result unknown, else `some true`. -/
def tri_unanimity (a b : Option Bool) : Option Bool :=
  if a = some false ∨ b = some false then some false
  else if a = none ∨ b = none then none
  else some true

/-- Modelled from the spec: `ClusterVerifierRecord.__add__` (the merge used
by `cvrs[cvr.cid] += cvr`) is absent from src/models.py; field policy follows
§4.2: `found_egress_failures` and `found_verifier_s3_logs` sticky-true,
`found_all_tests_passed` unanimity, lifecycle/in-flight states and log URL
most-recent-by-timestamp (existing record kept on ties), display name first
non-null. -/
def ClusterVerifierRecord.merge (a b : ClusterVerifierRecord) :
    ClusterVerifierRecord :=
  let recent := if a.timestamp < b.timestamp then b else a
  { timestamp := max a.timestamp b.timestamp
    cid := a.cid
    cname := a.cname.or b.cname
    ocm_state := recent.ocm_state
    ocm_inflight_states := recent.ocm_inflight_states
    found_verifier_s3_logs :=
      tri_sticky a.found_verifier_s3_logs b.found_verifier_s3_logs
    found_all_tests_passed :=
      tri_unanimity a.found_all_tests_passed b.found_all_tests_passed
    found_egress_failures :=
      tri_sticky a.found_egress_failures b.found_egress_failures
    log_download_url := recent.log_download_url }

/-- Ground-truth signal of the classifier (spec §4.4): did the cluster
actually have egress problems, from `found_egress_failures`. -/
def ground_signal (r : ClusterVerifierRecord) : Option Bool :=
  r.found_egress_failures

/-- Detection signal of the classifier (spec §4.4): did the verifier's own
health check flag a problem, derived from `found_all_tests_passed` and
`found_verifier_s3_logs`; unknown unless logs were found and the test
outcome is definite. -/
def detection_signal (r : ClusterVerifierRecord) : Option Bool :=
  match r.found_verifier_s3_logs, r.found_all_tests_passed with
  | some true, some b => some (!b)
  | _, _ => none

/-- Modelled from the spec: `ClusterVerifierRecord.get_outcome` is absent
from src/models.py; §4.4 requires an explicit 2x2 mapping of the resolved
ground-truth/detection signals, with `UNKNOWN` whenever either signal is
unresolvable. -/
def ClusterVerifierRecord.get_outcome (r : ClusterVerifierRecord) : Outcome :=
  match ground_signal r, detection_signal r with
  | some true, some true => .TRUE_POSITIVE
  | some true, some false => .FALSE_NEGATIVE
  | some false, some true => .FALSE_POSITIVE
  | some false, some false => .TRUE_NEGATIVE
  | none, _ => .UNKNOWN
  | some _, none => .UNKNOWN

/-- Association-list lookup in the HCP cache (`hcp_cache` in
analyze_csv.py). -/
def cache_lookup (cache : List (String × Bool)) (cid : String) :
    Option Bool :=
  match cache with
  | [] => none
  | (k, v) :: rest => if k = cid then some v else cache_lookup rest cid

/-- Modelled from the spec: `ClusterVerifierRecord.is_hostedcluster` is
absent from src/models.py; §4.3: a memoizing lookup backed by one external
call (`svc`) per unique cluster id, the result cached in the run's cache,
and a lookup failure surfaced to the caller. Returns the result, the updated
cache, and the number of external calls this invocation made. -/
def is_hostedcluster (svc : String → Except String Bool)
    (cache : List (String × Bool)) (cid : String) :
    Except String Bool × List (String × Bool) × Nat :=
  match cache_lookup cache cid with
  | some b => (.ok b, cache, 0)
  | none =>
    match svc cid with
    | .ok b => (.ok b, (cid, b) :: cache, 1)
    | .error e => (.error e, cache, 1)

/-- One run's sequence of HCP lookups over the observed cluster ids
(analyze_csv.py lines 49-59 thread `hcp_cache` through every row), counting
the external calls made; a lookup failure aborts the run as the uncaught
exception would. -/
def run_lookups (svc : String → Except String Bool)
    (cache : List (String × Bool)) (cids : List String) :
    Except String (List (String × Bool)) × Nat :=
  match cids with
  | [] => (.ok cache, 0)
  | cid :: rest =>
    match is_hostedcluster svc cache cid with
    | (.ok _, cache', n) =>
      let (res, m) := run_lookups svc cache' rest
      (res, n + m)
    | (.error e, _, n) => (.error e, n)

/-- Python's true division on the tally counts: raises `ZeroDivisionError`
on a zero denominator, exactly as `/` does in analyze_csv.py lines 97-103. -/
def pydiv (a b : Nat) : Except String Rat :=
  if b = 0 then .error "ZeroDivisionError: division by zero"
  else .ok ((a : Rat) / (b : Rat))

/-- The derived metrics of the statistics stage (analyze_csv.py lines
97-103), evaluated in source order: fdr, fpr, f1, acc, precision, recall,
specificity. The first zero denominator propagates as the uncaught
`ZeroDivisionError`. -/
def stats (tp tn fp fn : Nat) :
    Except String (Rat × Rat × Rat × Rat × Rat × Rat × Rat) :=
  match pydiv fp (fp + tp) with
  | .error e => .error e
  | .ok fdr =>
    match pydiv fp (fp + tn) with
    | .error e => .error e
    | .ok fpr =>
      match pydiv (2 * tp) (2 * tp + fp + fn) with
      | .error e => .error e
      | .ok f1 =>
        match pydiv (tp + tn) (tp + tn + fp + fn) with
        | .error e => .error e
        | .ok acc =>
          match pydiv tp (tp + fp) with
          | .error e => .error e
          | .ok precision =>
            match pydiv tp (tp + fn) with
            | .error e => .error e
            | .ok recl =>
              match pydiv tn (tn + fp) with
              | .error e => .error e
              | .ok specificity =>
                .ok (fdr, fpr, f1, acc, precision, recl, specificity)

/-- Boolean observer for the error side of an `Except`, modelling an uncaught
Python exception. -/
def isError : Except String α → Bool
  | .error _ => true
  | .ok _ => false

/-- Concrete stand-in for `datetime.fromisoformat` used to instantiate
theorems on closed inputs: accepts every string as instant 0. -/
def ts_parse0 : String → Option Int := fun _ => some 0

/-- Concrete stand-in for `json.loads` used on closed inputs: decodes every
string to the empty list. -/
def json_list0 : String → Option (List String) := fun _ => some []

/-- Concrete stand-in for `json.loads` decoding the literal list holding the
uppercase token "PASSED". -/
def json_passed_upper : String → Option (List String) :=
  fun s => if s = "[\"PASSED\"]" then some ["PASSED"] else none

/-- Concrete stand-in for util.py `is_valid_url` on closed inputs: rejects
every string. -/
def valid_url0 : String → Bool := fun _ => false

/-- Concrete external HCP service used to instantiate theorems: answers
`false` for every cluster id. -/
def svc_false : String → Except String Bool := fun _ => .ok false

/-- Concrete record with timestamp 0, cluster id "cid-a" and every optional
field unknown. -/
def cvr0 : ClusterVerifierRecord :=
  ⟨0, "cid-a", none, none, none, none, none, none, none⟩

/-- Concrete record differing from `cvr0` only in its cluster id. -/
def cvr0b : ClusterVerifierRecord := { cvr0 with cid := "cid-b" }

/-- Concrete record like `cvr0` but with a definite egress failure
observed. -/
def cvr_egress : ClusterVerifierRecord :=
  { cvr0 with found_egress_failures := some true }

/-- Concrete row lacking the cluster id column. -/
def row_no_cid : Row :=
  ⟨some "2024-01-01T00:00:00Z", none, some "", some "", some "",
   some "", some "", some "", some ""⟩

/-- Concrete row whose `ocm_state` column holds a token outside the closed
enumeration. -/
def row_bad_ocm : Row :=
  ⟨some "2024-01-01T00:00:00Z", some "abc", some "", some "bogus", some "",
   some "", some "", some "", some ""⟩

/-- Concrete row whose `ocm_state` column holds the uppercase case-variant
"READY" of a valid lifecycle state. -/
def row_ready_upper : Row :=
  ⟨some "2024-01-01T00:00:00Z", some "abc", some "", some "READY", some "",
   some "", some "", some "", some ""⟩

/-- Concrete row whose `ocm_inflight_states` column holds the uppercase
case-variant "PASSED" of a valid in-flight state. -/
def row_inflight_upper : Row :=
  ⟨some "2024-01-01T00:00:00Z", some "abc", some "", some "ready",
   some "[\"PASSED\"]", some "", some "", some "", some ""⟩

/-- Record produced by `from_dict` on `row_ready_upper` under the concrete
collaborators. -/
def cvr_ready : ClusterVerifierRecord :=
  ⟨0, "abc", none, some .READY, none, none, none, none, none⟩

/-- Tri-state list summary under the sticky-true policy: `some true` when any
member is `some true`, else `some false` when any member is `some false`,
else unknown. -/
def sticky_char (l : List (Option Bool)) : Option Bool :=
  if l.any (fun x => decide (x = some true)) then some true
  else if l.any (fun x => decide (x = some false)) then some false
  else none

/-- Tri-state list summary under the unanimity policy: `some false` when any
member is `some false`, else unknown when any member is unknown, else
`some true`. -/
def unan_char (l : List (Option Bool)) : Option Bool :=
  if l.any (fun x => decide (x = some false)) then some false
  else if l.any (fun x => decide (x = none)) then none
  else some true

theorem tri_sticky_absorb : ∀ x y : Option Bool,
    tri_sticky (tri_sticky x y) y = tri_sticky x y := by decide

theorem tri_unanimity_absorb : ∀ x y : Option Bool,
    tri_unanimity (tri_unanimity x y) y = tri_unanimity x y := by decide

theorem option_or_absorb : ∀ x y : Option String, (x.or y).or y = x.or y := by
  intro x y
  cases x <;> cases y <;> simp [Option.or]

/-- C1: the statistics stage has no zero-denominator guard: on the tally
TP=0, TN=1, FP=0, FN=1 the false-discovery-rate division FP/(FP+TP) raises
an uncaught ZeroDivisionError instead of reporting the metric as
"undefined". -/
theorem stats_zero_denominator_raises :
    stats 0 1 0 1 = .error "ZeroDivisionError: division by zero" := rfl

/-- C9 counterexample: two records sharing a timestamp but differing in
cluster id satisfy none of `<`, `>`, or equality, so the claimed exact
trichotomy with record equality fails. -/
theorem ltb_gtb_trichotomy_fails :
    ClusterVerifierRecord.ltb cvr0 cvr0b = false ∧
    ClusterVerifierRecord.gtb cvr0 cvr0b = false ∧ cvr0 ≠ cvr0b := by
  refine ⟨rfl, rfl, ?_⟩
  intro h
  exact absurd (congrArg ClusterVerifierRecord.cid h) (by decide)

/-- C9 amended: both comparison operators are determined solely by the
timestamp field, and exactly one of `a < b`, `a > b`, or timestamp equality
holds for every pair of records. -/
theorem ltb_gtb_timestamp_trichotomy :
    ∀ a b : ClusterVerifierRecord,
      (a.ltb b = decide (a.timestamp < b.timestamp)) ∧
      (a.gtb b = decide (b.timestamp < a.timestamp)) ∧
      ((a.ltb b = true ∧ a.gtb b = false ∧ a.timestamp ≠ b.timestamp) ∨
       (a.gtb b = true ∧ a.ltb b = false ∧ a.timestamp ≠ b.timestamp) ∨
       (a.timestamp = b.timestamp ∧ a.ltb b = false ∧ a.gtb b = false)) := by
  intro a b
  refine ⟨rfl, rfl, ?_⟩
  unfold ClusterVerifierRecord.ltb ClusterVerifierRecord.gtb
  rcases lt_trichotomy a.timestamp b.timestamp with h | h | h
  · exact Or.inl ⟨by simpa using h, by simpa using not_lt.mpr h.le, ne_of_lt h⟩
  · exact Or.inr (Or.inr ⟨h, by simpa using not_lt.mpr h.ge, by simpa using not_lt.mpr h.le⟩)
  · exact Or.inr (Or.inl ⟨by simpa using h, by simpa using not_lt.mpr h.le, ne_of_gt h⟩)

/-- C2: the outcome classifier is total over the five outcome variants, and
returns UNKNOWN whenever the ground-truth or the detection signal is
unresolvable. -/
theorem get_outcome_total_and_unknown :
    ∀ r : ClusterVerifierRecord,
      (r.get_outcome = Outcome.TRUE_POSITIVE ∨ r.get_outcome = Outcome.TRUE_NEGATIVE ∨
       r.get_outcome = Outcome.FALSE_POSITIVE ∨ r.get_outcome = Outcome.FALSE_NEGATIVE ∨
       r.get_outcome = Outcome.UNKNOWN) ∧
      ((ground_signal r = none ∨ detection_signal r = none) →
        r.get_outcome = Outcome.UNKNOWN) := by
  intro r
  constructor
  · cases h : r.get_outcome <;> simp
  · intro h
    cases hg : ground_signal r with
    | none => simp [ClusterVerifierRecord.get_outcome, hg]
    | some gb =>
      cases hd : detection_signal r with
      | none => cases gb <;> simp [ClusterVerifierRecord.get_outcome, hg, hd]
      | some db =>
        rcases h with h | h
        · rw [hg] at h; exact absurd h (by simp)
        · rw [hd] at h; exact absurd h (by simp)

/-- C2 witness: a record with unknown `found_egress_failures` classifies as
UNKNOWN. -/
theorem get_outcome_total_and_unknown_witness :
    ClusterVerifierRecord.get_outcome cvr0 = Outcome.UNKNOWN :=
  (get_outcome_total_and_unknown cvr0).2 (Or.inl rfl)

/-- C3: merging the same observation into an already-merged record a second
time changes no field: `merge (merge a b) b = merge a b`. -/
theorem merge_idempotent :
    ∀ a b : ClusterVerifierRecord, a.cid = b.cid →
      (a.merge b).merge b = a.merge b := by
  intro a b _
  have hts : ¬ (max a.timestamp b.timestamp < b.timestamp) :=
    not_lt.mpr (le_max_right _ _)
  simp [ClusterVerifierRecord.merge, hts, max_assoc, max_self,
    tri_sticky_absorb, tri_unanimity_absorb, option_or_absorb]

/-- C3 witness: merging a concrete observation into its own merge result is
a no-op. -/
theorem merge_idempotent_witness :
    (cvr0.merge cvr0).merge cvr0 = cvr0.merge cvr0 :=
  merge_idempotent cvr0 cvr0 rfl

theorem foldl_merge_egress (t : List ClusterVerifierRecord) :
    ∀ h : ClusterVerifierRecord,
      (t.foldl ClusterVerifierRecord.merge h).found_egress_failures =
        t.foldl (fun acc o => tri_sticky acc o.found_egress_failures)
          h.found_egress_failures := by
  induction t with
  | nil => intro h; rfl
  | cons o t ih =>
    intro h
    rw [List.foldl_cons, List.foldl_cons, ih (h.merge o)]
    rfl

theorem foldl_merge_tests (t : List ClusterVerifierRecord) :
    ∀ h : ClusterVerifierRecord,
      (t.foldl ClusterVerifierRecord.merge h).found_all_tests_passed =
        t.foldl (fun acc o => tri_unanimity acc o.found_all_tests_passed)
          h.found_all_tests_passed := by
  induction t with
  | nil => intro h; rfl
  | cons o t ih =>
    intro h
    rw [List.foldl_cons, List.foldl_cons, ih (h.merge o)]
    rfl

theorem foldl_tri_sticky_char (l : List (Option Bool)) :
    ∀ x, l.foldl tri_sticky x = sticky_char (x :: l) := by
  induction l with
  | nil =>
    intro x
    rcases x with _ | (_ | _) <;> rfl
  | cons y l ih =>
    intro x
    rw [List.foldl_cons, ih (tri_sticky x y)]
    rcases x with _ | (_ | _) <;> rcases y with _ | (_ | _) <;>
      simp [sticky_char, tri_sticky, List.any_cons]

theorem foldl_tri_unanimity_char (l : List (Option Bool)) :
    ∀ x, l.foldl tri_unanimity x = unan_char (x :: l) := by
  induction l with
  | nil =>
    intro x
    rcases x with _ | (_ | _) <;> rfl
  | cons y l ih =>
    intro x
    rw [List.foldl_cons, ih (tri_unanimity x y)]
    rcases x with _ | (_ | _) <;> rcases y with _ | (_ | _) <;>
      simp [unan_char, tri_unanimity, List.any_cons]

theorem perm_any_eq {α : Type} {p : α → Bool} {l₁ l₂ : List α}
    (h : l₁.Perm l₂) : l₁.any p = l₂.any p := by
  cases h1 : l₁.any p with
  | true =>
    rcases List.any_eq_true.mp h1 with ⟨x, hx, hp⟩
    exact (List.any_eq_true.mpr ⟨x, h.mem_iff.mp hx, hp⟩).symm
  | false =>
    cases h2 : l₂.any p with
    | false => rfl
    | true =>
      rcases List.any_eq_true.mp h2 with ⟨x, hx, hp⟩
      have hcon := List.any_eq_true.mpr ⟨x, h.mem_iff.mpr hx, hp⟩
      rw [h1] at hcon
      exact (Bool.false_ne_true hcon).elim

theorem sticky_char_perm {l₁ l₂ : List (Option Bool)} (h : l₁.Perm l₂) :
    sticky_char l₁ = sticky_char l₂ := by
  unfold sticky_char
  simp only [perm_any_eq h]

theorem unan_char_perm {l₁ l₂ : List (Option Bool)} (h : l₁.Perm l₂) :
    unan_char l₁ = unan_char l₂ := by
  unfold unan_char
  simp only [perm_any_eq h]

theorem sticky_char_true (l : List (Option Bool)) :
    sticky_char l = some true ↔
      l.any (fun x => decide (x = some true)) = true := by
  unfold sticky_char
  cases h1 : l.any (fun x => decide (x = some true)) with
  | true => simp [h1]
  | false =>
    cases h2 : l.any (fun x => decide (x = some false)) <;> simp [h1, h2]

theorem unan_char_false (l : List (Option Bool)) :
    unan_char l = some false ↔
      l.any (fun x => decide (x = some false)) = true := by
  unfold unan_char
  cases h1 : l.any (fun x => decide (x = some false)) with
  | true => simp [h1]
  | false =>
    cases h2 : l.any (fun x => decide (x = none)) <;> simp [h1, h2]

theorem unan_char_true (l : List (Option Bool)) :
    unan_char l = some true ↔
      (l.any (fun x => decide (x = some false)) = false ∧
       l.any (fun x => decide (x = none)) = false) := by
  unfold unan_char
  cases h1 : l.any (fun x => decide (x = some false)) <;>
    cases h2 : l.any (fun x => decide (x = none)) <;> simp [h1, h2]

theorem foldl_proj_map {A B : Type} (f : A → B) (op : B → B → B)
    (t : List A) :
    ∀ x, t.foldl (fun acc o => op acc (f o)) x = (t.map f).foldl op x := by
  induction t with
  | nil => intro x; rfl
  | cons o t ih =>
    intro x
    rw [List.foldl_cons, List.map_cons, List.foldl_cons, ih]

/-- C4: for observations sharing one cluster id, the sticky and unanimity
fields of a merge fold are the same for every fold order; the merged
`found_egress_failures` is true iff some observation reports true, and the
merged `found_all_tests_passed` is true only if all observations report
true, any single false making it false. -/
theorem merge_fold_sticky_unanimity :
    ∀ (h₁ h₂ : ClusterVerifierRecord) (t₁ t₂ : List ClusterVerifierRecord),
      (h₁ :: t₁).Perm (h₂ :: t₂) →
      (∀ o ∈ h₁ :: t₁, o.cid = h₁.cid) →
      ((t₁.foldl ClusterVerifierRecord.merge h₁).found_egress_failures =
        (t₂.foldl ClusterVerifierRecord.merge h₂).found_egress_failures) ∧
      ((t₁.foldl ClusterVerifierRecord.merge h₁).found_all_tests_passed =
        (t₂.foldl ClusterVerifierRecord.merge h₂).found_all_tests_passed) ∧
      ((t₁.foldl ClusterVerifierRecord.merge h₁).found_egress_failures = some true ↔
        ∃ o ∈ h₁ :: t₁, o.found_egress_failures = some true) ∧
      ((t₁.foldl ClusterVerifierRecord.merge h₁).found_all_tests_passed = some true →
        ∀ o ∈ h₁ :: t₁, o.found_all_tests_passed = some true) ∧
      ((∃ o ∈ h₁ :: t₁, o.found_all_tests_passed = some false) →
        (t₁.foldl ClusterVerifierRecord.merge h₁).found_all_tests_passed = some false) := by
  intro h₁ h₂ t₁ t₂ hperm _
  have e₁ : (t₁.foldl ClusterVerifierRecord.merge h₁).found_egress_failures =
      sticky_char ((h₁ :: t₁).map (fun o => o.found_egress_failures)) := by
    rw [foldl_merge_egress, foldl_proj_map, foldl_tri_sticky_char, List.map_cons]
  have e₂ : (t₂.foldl ClusterVerifierRecord.merge h₂).found_egress_failures =
      sticky_char ((h₂ :: t₂).map (fun o => o.found_egress_failures)) := by
    rw [foldl_merge_egress, foldl_proj_map, foldl_tri_sticky_char, List.map_cons]
  have a₁ : (t₁.foldl ClusterVerifierRecord.merge h₁).found_all_tests_passed =
      unan_char ((h₁ :: t₁).map (fun o => o.found_all_tests_passed)) := by
    rw [foldl_merge_tests, foldl_proj_map, foldl_tri_unanimity_char, List.map_cons]
  have a₂ : (t₂.foldl ClusterVerifierRecord.merge h₂).found_all_tests_passed =
      unan_char ((h₂ :: t₂).map (fun o => o.found_all_tests_passed)) := by
    rw [foldl_merge_tests, foldl_proj_map, foldl_tri_unanimity_char, List.map_cons]
  refine ⟨?_, ?_, ?_, ?_, ?_⟩
  · rw [e₁, e₂]
    exact sticky_char_perm (hperm.map _)
  · rw [a₁, a₂]
    exact unan_char_perm (hperm.map _)
  · rw [e₁, sticky_char_true]
    simp [List.any_eq_true]
  · intro hT o ho
    rw [a₁] at hT
    obtain ⟨hf, hn⟩ := (unan_char_true _).mp hT
    have h1 := List.any_eq_false.mp hf _
      (List.mem_map_of_mem (fun o => o.found_all_tests_passed) ho)
    have h2 := List.any_eq_false.mp hn _
      (List.mem_map_of_mem (fun o => o.found_all_tests_passed) ho)
    simp only [decide_eq_true_eq] at h1 h2
    cases hh : o.found_all_tests_passed with
    | none => exact absurd hh h2
    | some b =>
      cases b with
      | false => exact absurd hh h1
      | true => rfl
  · rintro ⟨o, ho, hfo⟩
    rw [a₁]
    refine (unan_char_false _).mpr ?_
    exact List.any_eq_true.mpr
      ⟨_, List.mem_map_of_mem (fun o => o.found_all_tests_passed) ho, by simp [hfo]⟩

/-- C4 witness: the singleton fold of a record with a detected egress
failure yields a merged record whose `found_egress_failures` is true. -/
theorem merge_fold_sticky_unanimity_witness :
    (([] : List ClusterVerifierRecord).foldl ClusterVerifierRecord.merge
      cvr_egress).found_egress_failures = some true :=
  (merge_fold_sticky_unanimity cvr_egress cvr_egress [] [] (List.Perm.refl _)
    (by decide)).2.2.1.mpr ⟨cvr_egress, by simp, rfl⟩

theorem run_lookups_calls_le (svc : String → Except String Bool)
    (cids : List String) :
    ∀ cache, (run_lookups svc cache cids).2 ≤
      ((cids.toFinset).filter (fun c => cache_lookup cache c = none)).card := by
  induction cids with
  | nil => intro cache; simp [run_lookups]
  | cons cid rest ih =>
    intro cache
    cases hc : cache_lookup cache cid with
    | some b =>
      have hstep : (run_lookups svc cache (cid :: rest)).2 =
          (run_lookups svc cache rest).2 := by
        simp [run_lookups, is_hostedcluster, hc]
      rw [hstep]
      refine le_trans (ih cache) (Finset.card_le_card ?_)
      intro c hcmem
      simp only [Finset.mem_filter, List.mem_toFinset, List.toFinset_cons,
        Finset.mem_insert] at hcmem ⊢
      exact ⟨Or.inr hcmem.1, hcmem.2⟩
    | none =>
      cases hs : svc cid with
      | ok b =>
        have hstep : (run_lookups svc cache (cid :: rest)).2 =
            1 + (run_lookups svc ((cid, b) :: cache) rest).2 := by
          simp [run_lookups, is_hostedcluster, hc, hs]
        rw [hstep]
        have hsub : ((rest.toFinset).filter
            (fun c => cache_lookup ((cid, b) :: cache) c = none)) ⊆
            (((cid :: rest).toFinset).filter
              (fun c => cache_lookup cache c = none)).erase cid := by
          intro c hcmem
          simp only [Finset.mem_filter, List.mem_toFinset] at hcmem
          have hlk : (if cid = c then some b else cache_lookup cache c) = none := hcmem.2
          by_cases hq : cid = c
          · rw [if_pos hq] at hlk
            exact absurd hlk (by simp)
          · rw [if_neg hq] at hlk
            simp only [Finset.mem_erase, Finset.mem_filter, List.mem_toFinset,
              List.toFinset_cons, Finset.mem_insert]
            exact ⟨fun h => hq h.symm, Or.inr hcmem.1, hlk⟩
        have hmem : cid ∈ (((cid :: rest).toFinset).filter
            (fun c => cache_lookup cache c = none)) := by
          simp [List.toFinset_cons, hc]
        have hpos : 1 ≤ (((cid :: rest).toFinset).filter
            (fun c => cache_lookup cache c = none)).card :=
          Finset.card_pos.mpr ⟨cid, hmem⟩
        have hcard := Finset.card_erase_of_mem hmem
        have hrec := le_trans (ih ((cid, b) :: cache)) (Finset.card_le_card hsub)
        omega
      | error e =>
        have hstep : (run_lookups svc cache (cid :: rest)).2 = 1 := by
          simp [run_lookups, is_hostedcluster, hc, hs]
        rw [hstep]
        exact Finset.card_pos.mpr ⟨cid, by simp [List.toFinset_cons, hc]⟩

/-- C5: a cached cluster id is answered from the cache with zero external
calls and an unchanged cache; a lookup failure is surfaced to the caller;
and a whole run makes at most one external call per unique cluster id. -/
theorem hcp_lookup_cached_and_propagates :
    ∀ (svc : String → Except String Bool) (cache : List (String × Bool))
      (cid : String) (b : Bool) (e : String) (cids : List String),
      (cache_lookup cache cid = some b →
        is_hostedcluster svc cache cid = (.ok b, cache, 0)) ∧
      (cache_lookup cache cid = none → svc cid = .error e →
        (is_hostedcluster svc cache cid).1 = .error e) ∧
      (run_lookups svc [] cids).2 ≤ cids.toFinset.card := by
  intro svc cache cid b e cids
  refine ⟨?_, ?_, ?_⟩
  · intro h
    simp [is_hostedcluster, h]
  · intro h1 h2
    simp [is_hostedcluster, h1, h2]
  · have h := run_lookups_calls_le svc cids []
    simpa [cache_lookup] using h

/-- C5 witness: looking up an id already in the cache returns the cached
classification, leaves the cache unchanged, and makes zero external calls. -/
theorem hcp_lookup_cached_and_propagates_witness :
    is_hostedcluster svc_false [("id1", true)] "id1" =
      (.ok true, [("id1", true)], 0) :=
  (hcp_lookup_cached_and_propagates svc_false [("id1", true)] "id1" true "e"
    []).1 rfl

theorem from_dict_ok_inv {pT : String → Option Int}
    {jL : String → Option (List String)} {vU : String → Bool} {row : Row}
    {r : ClusterVerifierRecord} (hok : from_dict pT jL vU row = .ok r) :
    ∃ tsRaw cidRaw cnameRaw ocmRaw inflightRaw,
      row.timestamp = some tsRaw ∧
      pT (tsRaw.replace "Z" "+00:00") = some r.timestamp ∧
      row.cid = some cidRaw ∧
      is_nully_str (some (py_strip cidRaw)) = false ∧
      r.cid = py_strip cidRaw ∧
      row.cname = some cnameRaw ∧
      csv_bool_to_bool row.found_verifier_s3_logs = .ok r.found_verifier_s3_logs ∧
      csv_bool_to_bool row.found_all_tests_passed = .ok r.found_all_tests_passed ∧
      csv_bool_to_bool row.found_egress_failures = .ok r.found_egress_failures ∧
      row.ocm_state = some ocmRaw ∧
      row.ocm_inflight_states = some inflightRaw ∧
      parse_ocm_state ocmRaw = .ok r.ocm_state ∧
      parse_inflight jL inflightRaw = .ok r.ocm_inflight_states := by
  unfold from_dict at hok
  cases h1 : row.timestamp with
  | none => simp [h1] at hok
  | some tsRaw =>
  simp only [h1] at hok
  cases h2 : pT (tsRaw.replace "Z" "+00:00") with
  | none => simp [h2] at hok
  | some ts =>
  simp only [h2] at hok
  cases h3 : row.cid with
  | none => simp [h3] at hok
  | some cidRaw =>
  simp only [h3] at hok
  cases h4 : is_nully_str (some (py_strip cidRaw)) with
  | true => simp [h4] at hok
  | false =>
  simp only [h4, Bool.false_eq_true, if_false] at hok
  cases h5 : row.cname with
  | none => simp [h5] at hok
  | some cnameRaw =>
  simp only [h5] at hok
  cases h6 : csv_bool_to_bool row.found_verifier_s3_logs with
  | error e => simp [h6] at hok
  | ok b1 =>
  simp only [h6] at hok
  cases h7 : csv_bool_to_bool row.found_all_tests_passed with
  | error e => simp [h7] at hok
  | ok b2 =>
  simp only [h7] at hok
  cases h8 : csv_bool_to_bool row.found_egress_failures with
  | error e => simp [h8] at hok
  | ok b3 =>
  simp only [h8] at hok
  cases h9 : row.ocm_state with
  | none => simp [h9] at hok
  | some ocmRaw =>
  simp only [h9] at hok
  cases h10 : row.ocm_inflight_states with
  | none => simp [h10] at hok
  | some inflightRaw =>
  simp only [h10] at hok
  cases h11 : parse_ocm_state ocmRaw with
  | error e => simp [h11] at hok
  | ok ocmVal =>
  simp only [h11] at hok
  cases h12 : parse_inflight jL inflightRaw with
  | error e => simp [h12] at hok
  | ok inflVal =>
  simp only [h12, Except.ok.injEq] at hok
  subst hok
  exact ⟨tsRaw, cidRaw, cnameRaw, ocmRaw, inflightRaw, rfl, h2, rfl, h4, rfl,
    rfl, rfl, rfl, rfl, rfl, rfl, h11, h12⟩

/-- C6: parsing fails hard when the cluster id column is absent or blank
after trimming, and the cluster id of every successfully parsed record is
the trimmed, non-empty input value. -/
theorem from_dict_requires_cid :
    ∀ (pT : String → Option Int) (jL : String → Option (List String))
      (vU : String → Bool) (row : Row),
      (row.cid = none → isError (from_dict pT jL vU row) = true) ∧
      (∀ s, row.cid = some s → py_strip s = "" →
        isError (from_dict pT jL vU row) = true) ∧
      (∀ r, from_dict pT jL vU row = .ok r →
        ∃ s, row.cid = some s ∧ r.cid = py_strip s ∧ r.cid ≠ "") := by
  intro pT jL vU row
  refine ⟨?_, ?_, ?_⟩
  · intro h
    cases he : from_dict pT jL vU row with
    | error e => rfl
    | ok r =>
      obtain ⟨tsRaw, cidRaw, cnameRaw, ocmRaw, inflRaw, h1, h2, h3, hrest⟩ :=
        from_dict_ok_inv he
      rw [h] at h3
      exact absurd h3 (by simp)
  · intro s hs htrim
    cases he : from_dict pT jL vU row with
    | error e => rfl
    | ok r =>
      obtain ⟨tsRaw, cidRaw, cnameRaw, ocmRaw, inflRaw, h1, h2, h3, h4, hrest⟩ :=
        from_dict_ok_inv he
      rw [hs] at h3
      have hse : s = cidRaw := Option.some.inj h3
      rw [← hse, htrim] at h4
      exact absurd h4 (by decide)
  · intro r he
    obtain ⟨tsRaw, cidRaw, cnameRaw, ocmRaw, inflRaw, h1, h2, h3, h4, h5, hr⟩ :=
      from_dict_ok_inv he
    refine ⟨cidRaw, h3, h5, ?_⟩
    intro hemp
    rw [h5] at hemp
    rw [hemp] at h4
    exact absurd h4 (by decide)

/-- C6 witness: a row lacking the cluster id column is a hard parse
failure. -/
theorem from_dict_requires_cid_witness :
    isError (from_dict ts_parse0 json_list0 valid_url0 row_no_cid) = true :=
  (from_dict_requires_cid ts_parse0 json_list0 valid_url0 row_no_cid).1 rfl

/-- C7: each tri-state boolean column parses blank/absent to unknown,
case-insensitive "true"/"false" to the definite boolean, and any other token
to a hard parse failure; successful parses carry exactly these values into
the record. -/
theorem csv_bool_tristate :
    ∀ (s : String) (pT : String → Option Int)
      (jL : String → Option (List String)) (vU : String → Bool) (row : Row)
      (r : ClusterVerifierRecord),
      (csv_bool_to_bool none = .ok none) ∧
      (py_strip s = "" → csv_bool_to_bool (some s) = .ok none) ∧
      (py_lower (py_strip s) = "true" →
        csv_bool_to_bool (some s) = .ok (some true)) ∧
      (py_lower (py_strip s) = "false" →
        csv_bool_to_bool (some s) = .ok (some false)) ∧
      (py_lower (py_strip s) ≠ "" → py_lower (py_strip s) ≠ "true" →
        py_lower (py_strip s) ≠ "false" →
        isError (csv_bool_to_bool (some s)) = true) ∧
      (from_dict pT jL vU row = .ok r →
        csv_bool_to_bool row.found_verifier_s3_logs =
          .ok r.found_verifier_s3_logs ∧
        csv_bool_to_bool row.found_all_tests_passed =
          .ok r.found_all_tests_passed ∧
        csv_bool_to_bool row.found_egress_failures =
          .ok r.found_egress_failures) := by
  intro s pT jL vU row r
  refine ⟨rfl, ?_, ?_, ?_, ?_, ?_⟩
  · intro h
    simp only [csv_bool_to_bool]
    rw [h, show py_lower "" = "" from rfl, if_pos rfl]
  · intro h
    simp only [csv_bool_to_bool]
    rw [h, if_neg (by decide), if_pos rfl]
  · intro h
    simp only [csv_bool_to_bool]
    rw [h, if_neg (by decide), if_neg (by decide), if_pos rfl]
  · intro h1 h2 h3
    simp only [csv_bool_to_bool]
    rw [if_neg h1, if_neg h2, if_neg h3]
    rfl
  · intro he
    obtain ⟨_, _, _, _, _, _, _, _, _, _, _, hb1, hb2, hb3, _, _, _, _⟩ :=
      from_dict_ok_inv he
    exact ⟨hb1, hb2, hb3⟩

/-- C7 witness: the token "TRUE" parses to the definite boolean true. -/
theorem csv_bool_tristate_witness :
    csv_bool_to_bool (some "TRUE") = .ok (some true) :=
  (csv_bool_tristate "TRUE" ts_parse0 json_list0 valid_url0 row_no_cid
    cvr0).2.2.1 (by decide)

theorem inflight_of_list_error_of_mem (l : List String) (x : String)
    (hx : x ∈ l) (hfs : InFlightState.fromString x = none) :
    isError (inflight_of_list l) = true := by
  induction l with
  | nil => exact absurd hx (List.not_mem_nil x)
  | cons y ys ih =>
    rcases List.mem_cons.mp hx with he | hm
    · subst he
      simp [inflight_of_list, hfs, isError]
    · simp only [inflight_of_list]
      cases hy : InFlightState.fromString y with
      | none => rfl
      | some st =>
        cases hrec : inflight_of_list ys with
        | error e => rfl
        | ok sts =>
          have hcon := ih hm
          rw [hrec] at hcon
          exact absurd hcon (by simp [isError])

theorem parse_inflight_error_of_unrecognized
    (jL : String → Option (List String)) (raw : String) (l : List String)
    (x : String) (h1 : py_strip raw ≠ "") (h2 : jL raw = some l)
    (hx : x ∈ l) (hfs : InFlightState.fromString x = none) :
    isError (parse_inflight jL raw) = true := by
  have herr := inflight_of_list_error_of_mem l x hx hfs
  cases hil : inflight_of_list l with
  | error e =>
    unfold parse_inflight
    rw [if_neg h1, h2]
    simp [hil, isError]
  | ok sts =>
    rw [hil] at herr
    exact absurd herr (by simp [isError])

theorem parse_ocm_state_error_of_unrecognized (s : String)
    (h1 : py_strip (py_lower s) ≠ "")
    (h2 : OCMState.fromString (py_strip (py_lower s)) = none) :
    parse_ocm_state s = .error "ValueError: invalid OCMState" := by
  simp only [parse_ocm_state]
  rw [if_neg h1, h2]

/-- C8: a non-blank lifecycle-state or in-flight-state value outside its
closed enumeration makes the whole row a hard parse failure, and a
successful parse stores exactly the recognized enum member. -/
theorem from_dict_enum_strictness :
    ∀ (pT : String → Option Int) (jL : String → Option (List String))
      (vU : String → Bool) (row : Row),
      (∀ s, row.ocm_state = some s → py_strip (py_lower s) ≠ "" →
        OCMState.fromString (py_strip (py_lower s)) = none →
        isError (from_dict pT jL vU row) = true) ∧
      (∀ s l x, row.ocm_inflight_states = some s → py_strip s ≠ "" →
        jL s = some l → x ∈ l → InFlightState.fromString x = none →
        isError (from_dict pT jL vU row) = true) ∧
      (∀ s r, from_dict pT jL vU row = .ok r → row.ocm_state = some s →
        py_strip (py_lower s) ≠ "" →
        ∃ st, OCMState.fromString (py_strip (py_lower s)) = some st ∧
          r.ocm_state = some st) := by
  intro pT jL vU row
  refine ⟨?_, ?_, ?_⟩
  · intro s hs h1 h2
    cases he : from_dict pT jL vU row with
    | error e => rfl
    | ok r =>
      obtain ⟨_, _, _, ocmRaw, _, _, _, _, _, _, _, _, _, _, h10, _, h12, _⟩ :=
        from_dict_ok_inv he
      rw [hs] at h10
      have hse : ocmRaw = s := (Option.some.inj h10).symm
      rw [hse, parse_ocm_state_error_of_unrecognized s h1 h2] at h12
      exact absurd h12 (by simp)
  · intro s l x hs h1 h2 hx hfs
    cases he : from_dict pT jL vU row with
    | error e => rfl
    | ok r =>
      obtain ⟨_, _, _, _, inflRaw, _, _, _, _, _, _, _, _, _, _, h11, _, h13⟩ :=
        from_dict_ok_inv he
      rw [hs] at h11
      have hse : inflRaw = s := (Option.some.inj h11).symm
      rw [hse] at h13
      have herr := parse_inflight_error_of_unrecognized jL s l x h1 h2 hx hfs
      rw [h13] at herr
      exact absurd herr (by simp [isError])
  · intro s r he hs h1
    obtain ⟨_, _, _, ocmRaw, _, _, _, _, _, _, _, _, _, _, h10, _, h12, _⟩ :=
      from_dict_ok_inv he
    rw [hs] at h10
    have hse : ocmRaw = s := (Option.some.inj h10).symm
    rw [hse] at h12
    simp only [parse_ocm_state] at h12
    rw [if_neg h1] at h12
    cases hf : OCMState.fromString (py_strip (py_lower s)) with
    | none =>
      rw [hf] at h12
      exact absurd h12 (by simp)
    | some st =>
      rw [hf] at h12
      simp only [Except.ok.injEq] at h12
      exact ⟨st, rfl, h12.symm⟩

/-- C8 witness: a row whose lifecycle state is the unrecognized token
"bogus" is a hard parse failure. -/
theorem from_dict_enum_strictness_witness :
    isError (from_dict ts_parse0 json_list0 valid_url0 row_bad_ocm) = true :=
  (from_dict_enum_strictness ts_parse0 json_list0 valid_url0 row_bad_ocm).1
    "bogus" rfl (by decide) (by decide)

/-- C10: the lifecycle-state column is lowercased and stripped before enum
conversion, so any case variant of a valid state (e.g. "READY") is
accepted, whereas each in-flight-state string is converted without
normalization, so only exact lowercase members are accepted and any other
casing (e.g. "PASSED") is a hard parse failure. -/
theorem enum_case_normalization_asymmetry :
    ∀ (jL : String → Option (List String)) (s raw : String) (st : OCMState)
      (l : List String) (x : String),
      (OCMState.fromString (py_strip (py_lower s)) = some st →
        parse_ocm_state s = .ok (some st)) ∧
      (parse_ocm_state "READY" = .ok (some OCMState.READY)) ∧
      (InFlightState.fromString "PASSED" = none) ∧
      (InFlightState.fromString "passed" = some InFlightState.PASSED) ∧
      (py_strip raw ≠ "" → jL raw = some l → x ∈ l →
        InFlightState.fromString x = none →
        isError (parse_inflight jL raw) = true) ∧
      (from_dict ts_parse0 json_list0 valid_url0 row_ready_upper =
        .ok cvr_ready) ∧
      (isError (from_dict ts_parse0 json_passed_upper valid_url0
        row_inflight_upper) = true) := by
  intro jL s raw st l x
  refine ⟨?_, rfl, by decide, by decide, ?_, rfl, by decide⟩
  · intro h
    have hne : py_strip (py_lower s) ≠ "" := by
      intro hemp
      rw [hemp] at h
      exact Option.noConfusion ((show OCMState.fromString "" = none from
        rfl).symm.trans h)
    simp only [parse_ocm_state]
    rw [if_neg hne, h]
  · intro h1 h2 hx hfs
    exact parse_inflight_error_of_unrecognized jL raw l x h1 h2 hx hfs

/-- C10 witness: the mixed-case token "Ready" is accepted for the lifecycle
state. -/
theorem enum_case_normalization_asymmetry_witness :
    parse_ocm_state "Ready" = .ok (some OCMState.READY) :=
  (enum_case_normalization_asymmetry json_list0 "Ready" "x" OCMState.READY
    [] "y").1 (by decide)
